import Mathlib

set_option maxRecDepth 8000

/-!
Shallow embedding of the viewport / interaction / label-fitting core of
`src/js/FlameGraph.js`, over exact rational arithmetic.  JS numbers are
modelled as `ℚ`; nullable numbers as `Option ℚ`; JS strings as `List Char`.
The canvas 2D context's `measureText` is an external collaborator and is
modelled as an arbitrary function field `measure : List Char → ℚ`.
-/

namespace FlameGraph

/-- Model of a JS nullable number: `none` is `null`/`undefined`.  `jsNum`
realises the `ToNumber` coercion, under which `null` becomes `0`. -/
def jsNum (v : Option ℚ) : ℚ := v.getD 0

/-- Model of JS `v || d` for a nullable number `v`: both `null` and `0` are
falsy, so either yields the default `d`. -/
def jsOr (v : Option ℚ) (d : ℚ) : ℚ :=
  match v with
  | none => d
  | some x => if x = 0 then d else x

/-- Constant `GRAPH_WHEEL_ZOOM_SENSITIVITY = 0.00035` from the source. -/
def GRAPH_WHEEL_ZOOM_SENSITIVITY : ℚ := 0.00035

/-- Constant `GRAPH_WHEEL_SCROLL_SENSITIVITY = 0.5` from the source. -/
def GRAPH_WHEEL_SCROLL_SENSITIVITY : ℚ := 0.5

/-- Constant `GRAPH_MIN_SELECTION_WIDTH = 10` (ms) from the source. -/
def GRAPH_MIN_SELECTION_WIDTH : ℚ := 10

/-- Constant `TIMELINE_TICKS_MULTIPLE = 5` (ms) from the source. -/
def TIMELINE_TICKS_MULTIPLE : ℤ := 5

/-- Constant `TIMELINE_TICKS_SPACING_MIN = 75` (px) from the source. -/
def TIMELINE_TICKS_SPACING_MIN : ℚ := 75

/-- The record stored in `this._selection` after `setData`:
`{start, end, maxHeight, offsetY}`.  Since `end` is a Lean keyword, that
field is named `stop` here. -/
structure Selection where
  start : ℚ
  stop : ℚ
  offsetY : ℚ
  maxHeight : ℚ
deriving DecidableEq

/-- The `GraphSelectionDragger` record: `originX`/`originY` are `null`
outside a drag (`_onMouseUp` resets them), `anchor` is a `GraphSelection`
whose `start`/`end` are flattened into `anchorStart`/`anchorEnd`. -/
structure GraphSelectionDragger where
  originX : Option ℚ
  originY : Option ℚ
  originOffsetY : ℚ
  anchorStart : ℚ
  anchorEnd : ℚ
deriving DecidableEq

/-- The mutable widget state read and written by the interaction handlers.
`viewRange` models `this._viewRange = [minTime, maxTime]`; the interaction
claims all concern states reached after `setData` on a non-empty dataset,
where both entries are (non-null) numbers, which is why the pair is `ℚ × ℚ`
here (for `setData` itself, including the empty dataset, see `setData`
below, which records the possibly-null extent faithfully).  `width` is the
canvas device-pixel width `this._width`. -/
structure GraphState where
  viewRange : ℚ × ℚ
  selection : Selection
  dragger : GraphSelectionDragger
  width : ℚ
  pixelRatio : ℚ
  shouldRedraw : Bool
deriving DecidableEq

/-- `_normalizeSelectionBounds`: clamps `start` from below to
`viewRange[0]` and `end` from above to `viewRange[1]`.  The source also
computes `minSelectionWidth = GRAPH_MIN_SELECTION_WIDTH * pixelRatio` into
a local that is never read afterwards; the unused binding is reproduced. -/
def normalizeSelectionBounds (s : GraphState) : GraphState :=
  let _minSelectionWidth := GRAPH_MIN_SELECTION_WIDTH * s.pixelRatio
  let start := s.selection.start
  let stop := s.selection.stop
  let start := if start < s.viewRange.1 then s.viewRange.1 else start
  let stop := if stop > s.viewRange.2 then s.viewRange.2 else stop
  { s with selection := { s.selection with start := start, stop := stop } }

/-- `_onMouseMove`: with no drag in progress (`dragger.originX == null`)
the handler only computes locals and returns; during a drag it shifts the
anchored window by a clamped horizontal delta, shifts and clamps the
vertical offset, normalizes, and marks dirty.  `clientX`/`clientY` come
from the event; `offsetLeft`/`offsetTop` are `_getContainerOffset()`. -/
def onMouseMove (s : GraphState) (clientX clientY offsetLeft offsetTop : ℚ) :
    GraphState :=
  let mouseX := (clientX - offsetLeft) * s.pixelRatio
  let mouseY := (clientY - offsetTop) * s.pixelRatio
  let canvasWidth := s.width
  let selectionWidth := s.selection.stop - s.selection.start
  let selectionScale := canvasWidth / selectionWidth
  match s.dragger.originX with
  | none => s
  | some originX =>
    let moveDeltaX := (originX - mouseX) / selectionScale
    let moveDeltaX :=
      if s.dragger.anchorStart + moveDeltaX ≤ s.viewRange.1 then
        s.viewRange.1 - s.dragger.anchorStart
      else moveDeltaX
    let moveDeltaX :=
      if s.dragger.anchorEnd + moveDeltaX ≥ s.viewRange.2 then
        s.viewRange.2 - s.dragger.anchorEnd
      else moveDeltaX
    let start := s.dragger.anchorStart + moveDeltaX
    let stop := s.dragger.anchorEnd + moveDeltaX
    let moveDeltaY := jsNum s.dragger.originY - mouseY
    let offsetY := s.dragger.originOffsetY + moveDeltaY
    let offsetY := if offsetY < 0 then 0 else offsetY
    let offsetY :=
      if offsetY > s.selection.maxHeight then s.selection.maxHeight
      else offsetY
    let s1 := { s with selection :=
      { s.selection with start := start, stop := stop, offsetY := offsetY } }
    let s2 := normalizeSelectionBounds s1
    { s2 with shouldRedraw := true }

/-- `_onMouseDown`: captures the drag anchor. -/
def onMouseDown (s : GraphState) (clientX clientY offsetLeft offsetTop : ℚ) :
    GraphState :=
  let mouseX := (clientX - offsetLeft) * s.pixelRatio
  let mouseY := (clientY - offsetTop) * s.pixelRatio
  { s with dragger :=
    { originX := some mouseX
    , originY := some mouseY
    , originOffsetY := s.selection.offsetY
    , anchorStart := s.selection.start
    , anchorEnd := s.selection.stop } }

/-- `_onMouseUp`: clears the drag origin; the stale anchor fields remain
but are unreadable behind the `originX == null` guard, as in the source. -/
def onMouseUp (s : GraphState) : GraphState :=
  { s with dragger := { s.dragger with originX := none, originY := none } }

/-- Wheel delta modes, `WheelEvent.DOM_DELTA_{PIXEL,LINE,PAGE}` plus the
`default` arm of `incrementForMode`. -/
inductive DeltaMode where
  | pixel
  | line
  | page
  | otherMode
deriving DecidableEq

/-- The inner helper `incrementForMode` of `_onMouseWheel`. -/
def incrementForMode : DeltaMode → ℚ
  | .pixel => 1
  | .line => 15
  | .page => 400
  | .otherMode => 0

/-- The fields of the wheel event read by `_onMouseWheel`. -/
structure WheelEvent where
  clientX : ℚ
  deltaX : ℚ
  deltaY : ℚ
  deltaMode : DeltaMode
deriving DecidableEq

/-- `_onMouseWheel`: applies the zoom component (`deltaY`, anchored at the
pointer) then the pan component (`deltaX`), normalizes, marks dirty. -/
def onMouseWheel (s : GraphState) (e : WheelEvent) (offsetLeft : ℚ) :
    GraphState :=
  let mouseX := (e.clientX - offsetLeft) * s.pixelRatio
  let canvasWidth := s.width
  let selectionWidth := s.selection.stop - s.selection.start
  let selectionScale := canvasWidth / selectionWidth
  let distFromStart := mouseX
  let distFromEnd := canvasWidth - mouseX
  let vectorY := e.deltaY * incrementForMode e.deltaMode *
    GRAPH_WHEEL_ZOOM_SENSITIVITY / selectionScale
  let start := s.selection.start - distFromStart * vectorY
  let stop := s.selection.stop + distFromEnd * vectorY
  let vectorX := e.deltaX * incrementForMode e.deltaMode *
    GRAPH_WHEEL_SCROLL_SENSITIVITY / selectionScale
  let start := start + vectorX
  let stop := stop + vectorX
  let s1 := { s with selection :=
    { s.selection with start := start, stop := stop } }
  let s2 := normalizeSelectionBounds s1
  { s2 with shouldRedraw := true }

/-- The pre-normalization `start` computed by `_onMouseWheel` (after both
the zoom and the pan component). -/
def wheelRawStart (s : GraphState) (e : WheelEvent) (offsetLeft : ℚ) : ℚ :=
  let mouseX := (e.clientX - offsetLeft) * s.pixelRatio
  let selectionScale := s.width / (s.selection.stop - s.selection.start)
  let vectorY := e.deltaY * incrementForMode e.deltaMode *
    GRAPH_WHEEL_ZOOM_SENSITIVITY / selectionScale
  let vectorX := e.deltaX * incrementForMode e.deltaMode *
    GRAPH_WHEEL_SCROLL_SENSITIVITY / selectionScale
  s.selection.start - mouseX * vectorY + vectorX

/-- The pre-normalization `end` computed by `_onMouseWheel`. -/
def wheelRawStop (s : GraphState) (e : WheelEvent) (offsetLeft : ℚ) : ℚ :=
  let mouseX := (e.clientX - offsetLeft) * s.pixelRatio
  let selectionScale := s.width / (s.selection.stop - s.selection.start)
  let vectorY := e.deltaY * incrementForMode e.deltaMode *
    GRAPH_WHEEL_ZOOM_SENSITIVITY / selectionScale
  let vectorX := e.deltaX * incrementForMode e.deltaMode *
    GRAPH_WHEEL_SCROLL_SENSITIVITY / selectionScale
  s.selection.stop + (s.width - mouseX) * vectorY + vectorX

/-- The key resolved by `_onKeyPress` from `e.code` / `e.key`. -/
inductive Key where
  | w
  | s
  | a
  | d
  | otherKey
deriving DecidableEq

/-- `_onKeyPress`: the four direction keys synthesize a wheel event at the
canvas horizontal midpoint (`clientX = offset.left + this.width / 2`,
pixel delta mode) and re-enter `_onMouseWheel`; other keys do nothing. -/
def onKeyPress (st : GraphState) (k : Key) (offsetLeft : ℚ) : GraphState :=
  match k with
  | .w => onMouseWheel st
      { clientX := offsetLeft + st.width / 2, deltaX := 0, deltaY := -100
      , deltaMode := .pixel } offsetLeft
  | .s => onMouseWheel st
      { clientX := offsetLeft + st.width / 2, deltaX := 0, deltaY := 100
      , deltaMode := .pixel } offsetLeft
  | .d => onMouseWheel st
      { clientX := offsetLeft + st.width / 2, deltaX := 100, deltaY := 0
      , deltaMode := .pixel } offsetLeft
  | .a => onMouseWheel st
      { clientX := offsetLeft + st.width / 2, deltaX := -100, deltaY := 0
      , deltaMode := .pixel } offsetLeft
  | .otherKey => st

/-- One public viewport mutation: a pointer move (drag pan when the
dragger is live), a wheel event (zoom and/or pan), or a key press
(keyboard-synthesized wheel). -/
inductive Mutation where
  | move (clientX clientY offsetLeft offsetTop : ℚ)
  | wheel (e : WheelEvent) (offsetLeft : ℚ)
  | key (k : Key) (offsetLeft : ℚ)

/-- Dispatches a `Mutation` to the corresponding handler. -/
def applyMutation (s : GraphState) : Mutation → GraphState
  | .move cx cy ol ot => onMouseMove s cx cy ol ot
  | .wheel e ol => onMouseWheel s e ol
  | .key k ol => onKeyPress s k ol

/-- One input rectangle `{x, y, width, height, text}`. -/
structure Block where
  x : ℚ
  y : ℚ
  width : ℚ
  height : ℚ
  text : List Char
deriving DecidableEq

/-- One layer `{color, blocks}` of the data source. -/
structure Layer where
  color : List Char
  blocks : List Block
deriving DecidableEq

/-- The inner-loop body of `setData`: folds one block into the running
`(minTime, maxTime, maxHeight)` accumulators, each `null` until the first
block is seen. -/
def setDataScanBlock (acc : Option ℚ × Option ℚ × Option ℚ) (b : Block) :
    Option ℚ × Option ℚ × Option ℚ :=
  let minTime := acc.1
  let maxTime := acc.2.1
  let maxHeight := acc.2.2
  let minTime :=
    match minTime with
    | none => some b.x
    | some m => if m > b.x then some b.x else some m
  let maxTime :=
    match maxTime with
    | none => some (b.x + b.width)
    | some m => if m < b.x + b.width then some (b.x + b.width) else some m
  let maxHeight :=
    match maxHeight with
    | none => some (b.y + b.height)
    | some m => if m < b.y + b.height then some (b.y + b.height) else some m
  (minTime, maxTime, maxHeight)

/-- What `setData` writes: `this._viewRange` (possibly-null extent),
`this._selection`, and the dirty flag. -/
structure SetDataResult where
  viewRange : Option ℚ × Option ℚ
  selection : Selection
  shouldRedraw : Bool
deriving DecidableEq

/-- `setData`: scans every block of every layer for the extent, then
builds the selection with the JS `||` defaults
`{start: minTime || 0, end: maxTime || 1000, maxHeight: maxHeight || 2000,
offsetY: 0}` and sets `_shouldRedraw`. -/
def setData (data : List Layer) : SetDataResult :=
  let acc := data.foldl (fun a layer => layer.blocks.foldl setDataScanBlock a)
    (none, none, none)
  { viewRange := (acc.1, acc.2.1)
  , selection :=
    { start := jsOr acc.1 0
    , stop := jsOr acc.2.1 1000
    , offsetY := 0
    , maxHeight := jsOr acc.2.2 2000 }
  , shouldRedraw := true }

/-- The text-measurement context: `measure` models the canvas context's
`measureText(...).width` for the active font (the string-keyed width cache
of `_getTextWidth` returns the same number as a fresh measurement, so it
is observationally the pure function), and `overflowChar` is the
configurable overflow marker (default `"..."`). -/
structure TextCtx where
  measure : List Char → ℚ
  overflowChar : List Char

/-- `this._overflowCharWidth = this._getTextWidth(this.overflowChar)`. -/
def overflowCharWidth (c : TextCtx) : ℚ := c.measure c.overflowChar

/-- `_calcAverageCharWidth`: averages the measured widths of the ASCII
characters with code points 32 to 122 inclusive (91 characters). -/
def averageCharWidth (c : TextCtx) : ℚ :=
  (((List.range' 32 91).map (fun n => c.measure [Char.ofNat n])).sum) / 91

/-- `_getTextWidthApprox(text) = text.length * this._averageCharWidth`. -/
def getTextWidthApprox (c : TextCtx) (text : List Char) : ℚ :=
  (text.length : ℚ) * averageCharWidth c

/-- The trimming loop of `_getFittedText`.  The JS loop runs `i` from `1`
to `text.length`, testing the prefix of length `text.length - i`; here the
argument counts the iterations still to run, so `fitLoop c text w (k+1)`
tests the prefix of length `k` and `fitLoop c text w 0` is the fall-through
`return ""`.  The initial call uses `k = text.length`, so the candidate
prefix lengths are `text.length - 1, ..., 1, 0`, exactly as in the JS. -/
def fitLoop (c : TextCtx) (text : List Char) (maxWidth : ℚ) :
    ℕ → List Char
  | 0 => []
  | k + 1 =>
    let trimmed := text.take k
    let trimmedWidth := getTextWidthApprox c trimmed + overflowCharWidth c
    if trimmedWidth < maxWidth then trimmed ++ c.overflowChar
    else fitLoop c text maxWidth k

/-- `_getFittedText(text, maxWidth)`: full text if its exact width is
strictly below `maxWidth`; empty if the overflow marker alone is too wide;
otherwise trim from the end using the approximate width plus the marker's
exact width. -/
def getFittedText (c : TextCtx) (text : List Char) (maxWidth : ℚ) :
    List Char :=
  let textWidth := c.measure text
  if textWidth < maxWidth then text
  else if overflowCharWidth c > maxWidth then []
  else fitLoop c text maxWidth text.length

/-- JS `ToInt32`: reduce an integer into `[-2^31, 2^31)`.  This is what
`timingStep <<= 1` applies to its operand (and `<< 1` doubles modulo
`2^32` in that range). -/
def toInt32 (n : ℤ) : ℤ := (n + 2147483648) % 4294967296 - 2147483648

/-- The `while (true)` loop of `_findOptimalTickInterval`, with an
explicit iteration budget: `none` means the budget was exhausted with the
loop still running, so `(∀ fuel, ... = none)` says the loop never exits.
Each iteration either returns `dataScale * timingStep` or doubles
`timingStep` with the JS 32-bit shift `timingStep <<= 1`. -/
def tickLoop (dataScale spacingMin : ℚ) : ℤ → ℕ → Option ℚ
  | _, 0 => none
  | timingStep, fuel + 1 =>
    let scaledStep := dataScale * (timingStep : ℚ)
    if scaledStep < spacingMin then
      tickLoop dataScale spacingMin (toInt32 (2 * timingStep)) fuel
    else some scaledStep

/-- `_findOptimalTickInterval(dataScale)` with the widget's `pixelRatio`
made explicit and the loop given an iteration budget. -/
def findOptimalTickInterval (pixelRatio dataScale : ℚ) (fuel : ℕ) :
    Option ℚ :=
  let spacingMin := TIMELINE_TICKS_SPACING_MIN * pixelRatio
  if dataScale > spacingMin then some dataScale
  else if dataScale = 0 then some 1
  else tickLoop dataScale spacingMin TIMELINE_TICKS_MULTIPLE fuel

/-! Concrete states and events used to instantiate and to refute claims. -/

/-- An idle dragger: no pointer-down since the last pointer-up. -/
def idleDragger : GraphSelectionDragger :=
  { originX := none, originY := none, originOffsetY := 0
  , anchorStart := 0, anchorEnd := 0 }

/-- The state right after `setData` on a dataset with extent `[0, 100]`
and depth `2000`, on a 1000-device-pixel-wide canvas with pixel ratio 1. -/
def c1State : GraphState :=
  { viewRange := (0, 100)
  , selection := { start := 0, stop := 100, offsetY := 0, maxHeight := 2000 }
  , dragger := idleDragger
  , width := 1000, pixelRatio := 1, shouldRedraw := false }

/-- A hard zoom-in at the canvas center: `deltaY = -100000` pixels. -/
def c1Event : WheelEvent :=
  { clientX := 500, deltaX := 0, deltaY := -100000, deltaMode := .pixel }

/-- Same full-extent viewport as `c1State`, for the min-width claim. -/
def c2State : GraphState :=
  { viewRange := (0, 100)
  , selection := { start := 0, stop := 100, offsetY := 0, maxHeight := 2000 }
  , dragger := idleDragger
  , width := 1000, pixelRatio := 1, shouldRedraw := false }

/-- A zoom-in wheel step with `deltaY = -10000` pixels. -/
def c2Event : WheelEvent :=
  { clientX := 500, deltaX := 0, deltaY := -10000, deltaMode := .pixel }

/-- A zoom-in wheel step with `deltaY = -20000` pixels. -/
def c2EventB : WheelEvent :=
  { clientX := 500, deltaX := 0, deltaY := -20000, deltaMode := .pixel }

/-- A viewport `[10, 60]` inside extent `[0, 100]`. -/
def c3State : GraphState :=
  { viewRange := (0, 100)
  , selection := { start := 10, stop := 60, offsetY := 0, maxHeight := 2000 }
  , dragger := idleDragger
  , width := 1000, pixelRatio := 1, shouldRedraw := false }

/-- A pure wheel pan to the left: `deltaX = -2000` pixels, `deltaY = 0`. -/
def c3Event : WheelEvent :=
  { clientX := 0, deltaX := -2000, deltaY := 0, deltaMode := .pixel }

/-- The viewport of `c3State` mid-drag: pointer went down at device pixel
`(500, 0)` while the selection was `[10, 60]`. -/
def c3DragState : GraphState :=
  { viewRange := (0, 100)
  , selection := { start := 10, stop := 60, offsetY := 0, maxHeight := 2000 }
  , dragger := { originX := some 500, originY := some 0, originOffsetY := 0
               , anchorStart := 10, anchorEnd := 60 }
  , width := 1000, pixelRatio := 1, shouldRedraw := false }

/-- A full-extent viewport `[0, 100]` for the zoom-anchor claim. -/
def c4State : GraphState :=
  { viewRange := (0, 100)
  , selection := { start := 0, stop := 100, offsetY := 0, maxHeight := 2000 }
  , dragger := idleDragger
  , width := 1000, pixelRatio := 1, shouldRedraw := false }

/-- A gentle zoom-in at the canvas center: `deltaY = -100` pixels,
clamping nothing. -/
def c4Event : WheelEvent :=
  { clientX := 500, deltaX := 0, deltaY := -100, deltaMode := .pixel }

/-- An idle-state viewport with a non-trivial selection and offset. -/
def c10State : GraphState :=
  { viewRange := (0, 50)
  , selection := { start := 5, stop := 30, offsetY := 7, maxHeight := 100 }
  , dragger := idleDragger
  , width := 800, pixelRatio := 2, shouldRedraw := false }

/-- A text context in which every character measures 1 unit, so a string
measures its length; the marker is the default three-dot ellipsis. -/
def unitCtx : TextCtx :=
  { measure := fun t => (t.length : ℚ), overflowChar := ['.', '.', '.'] }

/-- A text context in which the exact measured width of `"ab"` is 100
while every character measures 1 (the exact measurement and the
length-based approximation genuinely disagree, as they can for a real
font). -/
def c7Ctx : TextCtx :=
  { measure := fun t => if t = ['a', 'b'] then 100 else (t.length : ℚ)
  , overflowChar := ['.', '.', '.'] }

/-! Helper lemmas about normalization and the wheel handler. -/

theorem normalize_start_ge (s : GraphState) :
    s.viewRange.1 ≤ (normalizeSelectionBounds s).selection.start := by
  unfold normalizeSelectionBounds
  dsimp only
  split_ifs with h
  · exact le_refl _
  · exact le_of_not_lt h

theorem normalize_stop_le (s : GraphState) :
    (normalizeSelectionBounds s).selection.stop ≤ s.viewRange.2 := by
  unfold normalizeSelectionBounds
  dsimp only
  split_ifs with h
  · exact le_refl _
  · exact le_of_not_lt h

theorem onMouseWheel_start_eq (s : GraphState) (e : WheelEvent) (off : ℚ) :
    (onMouseWheel s e off).selection.start =
      if wheelRawStart s e off < s.viewRange.1 then s.viewRange.1
      else wheelRawStart s e off := rfl

theorem onMouseWheel_stop_eq (s : GraphState) (e : WheelEvent) (off : ℚ) :
    (onMouseWheel s e off).selection.stop =
      if wheelRawStop s e off > s.viewRange.2 then s.viewRange.2
      else wheelRawStop s e off := rfl

theorem onMouseWheel_offsetY (s : GraphState) (e : WheelEvent) (off : ℚ) :
    (onMouseWheel s e off).selection.offsetY = s.selection.offsetY := rfl

theorem onMouseWheel_maxHeight (s : GraphState) (e : WheelEvent) (off : ℚ) :
    (onMouseWheel s e off).selection.maxHeight = s.selection.maxHeight := rfl

theorem onMouseWheel_start_ge (s : GraphState) (e : WheelEvent) (off : ℚ) :
    s.viewRange.1 ≤ (onMouseWheel s e off).selection.start := by
  rw [onMouseWheel_start_eq]
  split_ifs with h
  · exact le_refl _
  · exact le_of_not_lt h

theorem onMouseWheel_stop_le (s : GraphState) (e : WheelEvent) (off : ℚ) :
    (onMouseWheel s e off).selection.stop ≤ s.viewRange.2 := by
  rw [onMouseWheel_stop_eq]
  split_ifs with h
  · exact le_refl _
  · exact le_of_not_lt h

theorem onMouseWheel_invariants (s : GraphState) (e : WheelEvent) (off : ℚ)
    (h3 : 0 ≤ s.selection.offsetY)
    (h4 : s.selection.offsetY ≤ s.selection.maxHeight) :
    s.viewRange.1 ≤ (onMouseWheel s e off).selection.start ∧
    (onMouseWheel s e off).selection.stop ≤ s.viewRange.2 ∧
    0 ≤ (onMouseWheel s e off).selection.offsetY ∧
    (onMouseWheel s e off).selection.offsetY ≤
      (onMouseWheel s e off).selection.maxHeight :=
  ⟨onMouseWheel_start_ge s e off, onMouseWheel_stop_le s e off,
   by rw [onMouseWheel_offsetY]; exact h3,
   by rw [onMouseWheel_offsetY, onMouseWheel_maxHeight]; exact h4⟩

theorem onMouseMove_invariants (s : GraphState) (cx cy ol ot : ℚ)
    (h1 : s.viewRange.1 ≤ s.selection.start)
    (h2 : s.selection.stop ≤ s.viewRange.2)
    (h3 : 0 ≤ s.selection.offsetY)
    (h4 : s.selection.offsetY ≤ s.selection.maxHeight) :
    s.viewRange.1 ≤ (onMouseMove s cx cy ol ot).selection.start ∧
    (onMouseMove s cx cy ol ot).selection.stop ≤ s.viewRange.2 ∧
    0 ≤ (onMouseMove s cx cy ol ot).selection.offsetY ∧
    (onMouseMove s cx cy ol ot).selection.offsetY ≤
      (onMouseMove s cx cy ol ot).selection.maxHeight := by
  rcases hox : s.dragger.originX with _ | ox
  · simp only [onMouseMove, hox]
    exact ⟨h1, h2, h3, h4⟩
  · simp only [onMouseMove, hox, normalizeSelectionBounds, jsNum]
    refine ⟨?_, ?_, ?_, ?_⟩ <;> (dsimp only; split_ifs <;> linarith)

/-! Helper lemmas about the trimming loop of the label fitter. -/

theorem fitLoop_length_le (c : TextCtx) (t : List Char) (w : ℚ) :
    ∀ k, k ≤ t.length →
      (fitLoop c t w k).length ≤ k - 1 + c.overflowChar.length := by
  intro k
  induction k with
  | zero => intro _; simp [fitLoop]
  | succ k ih =>
    intro hk
    unfold fitLoop
    dsimp only
    split_ifs with h
    · rw [List.length_append, List.length_take,
        min_eq_left (Nat.le_of_succ_le hk)]
      omega
    · exact le_trans (ih (Nat.le_of_succ_le hk)) (by omega)

theorem fitLoop_mono (c : TextCtx) (t : List Char) {w1 w2 : ℚ}
    (h : w1 ≤ w2) :
    ∀ k, k ≤ t.length →
      (fitLoop c t w1 k).length ≤ (fitLoop c t w2 k).length := by
  intro k
  induction k with
  | zero => intro _; simp [fitLoop]
  | succ k ih =>
    intro hk
    unfold fitLoop
    dsimp only
    by_cases h1 : getTextWidthApprox c (t.take k) + overflowCharWidth c < w1
    · rw [if_pos h1, if_pos (lt_of_lt_of_le h1 h)]
    · rw [if_neg h1]
      by_cases h2 : getTextWidthApprox c (t.take k) + overflowCharWidth c < w2
      · rw [if_pos h2]
        refine le_trans (fitLoop_length_le c t w1 k (Nat.le_of_succ_le hk)) ?_
        rw [List.length_append, List.length_take,
          min_eq_left (Nat.le_of_succ_le hk)]
        omega
      · rw [if_neg h2]
        exact ih (Nat.le_of_succ_le hk)

/-! The claim theorems. -/

/-- C5, counterexample: the claim quantifies over every `w ≥` the measured
width, but `_getFittedText` compares with a strict `<`.  At `w` exactly
equal to the measured width the full text is not returned: in a context
where every character measures 1, fitting `"ab"` into width 2 falls
through to the marker check (marker width 3 > 2) and yields `""`. -/
theorem c5_equal_width_counterexample :
    unitCtx.measure ['a', 'b'] ≤ 2 ∧
    ¬ (getFittedText unitCtx ['a', 'b'] 2 = ['a', 'b']) := by
  norm_num [unitCtx, getFittedText, overflowCharWidth]
  decide

/-- C5 (amended): for every width strictly greater than the exact measured
width of the text, `_getFittedText` returns the text unchanged. -/
theorem c5_fit_identity_when_strictly_fits (c : TextCtx) (t : List Char)
    (w : ℚ) (h : c.measure t < w) : getFittedText c t w = t := by
  unfold getFittedText
  dsimp only
  rw [if_pos h]

/-- Witness for C5 at a concrete input: in the unit-width context,
`"ab"` measures 2 < 5, and fitting it into width 5 returns it. -/
theorem c5_fit_identity_witness :
    unitCtx.measure ['a', 'b'] < 5 ∧
    getFittedText unitCtx ['a', 'b'] 5 = ['a', 'b'] :=
  ⟨by norm_num [unitCtx],
   c5_fit_identity_when_strictly_fits unitCtx ['a', 'b'] 5
     (by norm_num [unitCtx])⟩

/-- C6, counterexample: the claim quantifies over every string, but the
full-text test runs before the marker test.  In a context where every
character measures 1 and the marker `"..."` measures 3, fitting `"i"`
(width 1) into width 2 < 3 returns `"i"`, not the empty string. -/
theorem c6_narrow_width_counterexample :
    (2 : ℚ) < overflowCharWidth unitCtx ∧
    ¬ (getFittedText unitCtx ['i'] 2 = []) := by
  norm_num [unitCtx, getFittedText, overflowCharWidth]

/-- C6 (amended): when the full text does not fit (its measured width is
at least `w`) and `w` is strictly below the overflow marker's measured
width, `_getFittedText` returns the empty string. -/
theorem c6_fit_empty_when_marker_too_wide (c : TextCtx) (t : List Char)
    (w : ℚ) (h1 : w ≤ c.measure t) (h2 : w < overflowCharWidth c) :
    getFittedText c t w = [] := by
  unfold getFittedText
  dsimp only
  rw [if_neg (not_lt.2 h1), if_pos h2]

/-- Witness for C6 at a concrete input: `"abcd"` measures 4 ≥ 2, the
marker measures 3 > 2, and the fit is empty. -/
theorem c6_fit_empty_witness :
    (2 : ℚ) ≤ unitCtx.measure ['a', 'b', 'c', 'd'] ∧
    (2 : ℚ) < overflowCharWidth unitCtx ∧
    getFittedText unitCtx ['a', 'b', 'c', 'd'] 2 = [] :=
  ⟨by norm_num [unitCtx], by norm_num [unitCtx, overflowCharWidth],
   c6_fit_empty_when_marker_too_wide unitCtx ['a', 'b', 'c', 'd'] 2
     (by norm_num [unitCtx]) (by norm_num [unitCtx, overflowCharWidth])⟩

/-- C7, counterexample: monotonicity of the fitted length in the
available width fails, because the full-text branch uses the exact
measurement while the trimming loop uses the length-based approximation.
In `c7Ctx` the exact width of `"ab"` is 100 but each character
approximates to 1: at width 10 the fitter returns `"a..."` (length 4),
while at the larger width 101 it returns `"ab"` (length 2). -/
theorem c7_monotonicity_counterexample :
    (10 : ℚ) ≤ 101 ∧
    ¬ ((getFittedText c7Ctx ['a', 'b'] 10).length ≤
       (getFittedText c7Ctx ['a', 'b'] 101).length) := by
  norm_num [c7Ctx, getFittedText, overflowCharWidth, fitLoop,
    getTextWidthApprox, averageCharWidth]

/-- C7 (amended): the fitted length is monotone in the available width
over the truncation range, i.e. whenever both widths are at most the
exact measured width of the text (so neither admits the full text). -/
theorem c7_fit_length_monotone_in_truncation_range (c : TextCtx)
    (t : List Char) (w1 w2 : ℚ) (h12 : w1 ≤ w2) (hm : w2 ≤ c.measure t) :
    (getFittedText c t w1).length ≤ (getFittedText c t w2).length := by
  unfold getFittedText
  dsimp only
  rw [if_neg (not_lt.2 (le_trans h12 hm)), if_neg (not_lt.2 hm)]
  by_cases hov : overflowCharWidth c > w1
  · rw [if_pos hov]
    simp only [List.length_nil]
    exact Nat.zero_le _
  · have hov2 : ¬ overflowCharWidth c > w2 :=
      not_lt.2 (le_trans (not_lt.1 hov) h12)
    rw [if_neg hov, if_neg hov2]
    exact fitLoop_mono c t h12 t.length (le_refl _)

/-- Witness for C7 at a concrete input: widths 4 ≤ 5, both at most the
measured width 6 of `"abcdef"` in the unit-width context. -/
theorem c7_fit_length_monotone_witness :
    (4 : ℚ) ≤ 5 ∧ (5 : ℚ) ≤ unitCtx.measure ['a', 'b', 'c', 'd', 'e', 'f'] ∧
    (getFittedText unitCtx ['a', 'b', 'c', 'd', 'e', 'f'] 4).length ≤
      (getFittedText unitCtx ['a', 'b', 'c', 'd', 'e', 'f'] 5).length :=
  ⟨by norm_num, by norm_num [unitCtx],
   c7_fit_length_monotone_in_truncation_range unitCtx
     ['a', 'b', 'c', 'd', 'e', 'f'] 4 5 (by norm_num) (by norm_num [unitCtx])⟩

/-- C9: `setData([])` returns without error and produces exactly the
default selection `start = 0`, `end = 1000`, `maxHeight = 2000`,
`offsetY = 0` (with a null-null view range) and sets the dirty flag. -/
theorem c9_setData_empty_defaults :
    setData [] =
      { viewRange := (none, none)
      , selection := { start := 0, stop := 1000, offsetY := 0, maxHeight := 2000 }
      , shouldRedraw := true } := rfl

/-- C10: a mouse-move delivered while no drag is in progress
(`dragger.originX == null`) leaves the whole widget state unchanged:
selection bounds, vertical offset and dirty flag included. -/
theorem c10_idle_mousemove_noop (s : GraphState) (cx cy ol ot : ℚ)
    (h : s.dragger.originX = none) :
    onMouseMove s cx cy ol ot = s := by
  simp only [onMouseMove, h]

/-- Witness for C10 at a concrete idle state. -/
theorem c10_idle_mousemove_noop_witness :
    c10State.dragger.originX = none ∧
    onMouseMove c10State 5 5 0 0 = c10State :=
  ⟨rfl, c10_idle_mousemove_noop c10State 5 5 0 0 rfl⟩

/-- C1, counterexample: from the reachable full-extent viewport
`[0, 100]` (invariants all hold), a hard wheel zoom-in
(`deltaY = -100000` at the canvas center) leaves `start = 1750` and
`end = -1650`: normalization clamps `start` only from below and `end`
only from above, so `start ≤ end` (and hence `start ≤ dataExtent.max`)
is violated after the mutation. -/
theorem c1_order_invariant_fails :
    (c1State.viewRange.1 ≤ c1State.selection.start ∧
     c1State.selection.start ≤ c1State.selection.stop ∧
     c1State.selection.stop ≤ c1State.viewRange.2 ∧
     0 ≤ c1State.selection.offsetY ∧
     c1State.selection.offsetY ≤ c1State.selection.maxHeight) ∧
    ¬ ((applyMutation c1State (Mutation.wheel c1Event 0)).selection.start ≤
       (applyMutation c1State (Mutation.wheel c1Event 0)).selection.stop) := by
  constructor
  · norm_num [c1State]
  · norm_num [applyMutation, onMouseWheel, normalizeSelectionBounds, c1State,
      c1Event, incrementForMode, GRAPH_WHEEL_ZOOM_SENSITIVITY,
      GRAPH_WHEEL_SCROLL_SENSITIVITY, GRAPH_MIN_SELECTION_WIDTH, idleDragger]

/-- C1 (amended): for every viewport state satisfying the invariants and
every public mutation (drag pan, wheel zoom, wheel pan,
keyboard-synthesized wheel), after the mutation returns,
`dataExtent.min ≤ start`, `end ≤ dataExtent.max` and
`0 ≤ offsetY ≤ maxHeight` all hold; the ordering `start ≤ end` is the one
conjunct of the claimed invariant that the code does not maintain. -/
theorem c1_invariants_after_mutation (s : GraphState) (m : Mutation)
    (h1 : s.viewRange.1 ≤ s.selection.start)
    (h2 : s.selection.stop ≤ s.viewRange.2)
    (h3 : 0 ≤ s.selection.offsetY)
    (h4 : s.selection.offsetY ≤ s.selection.maxHeight) :
    s.viewRange.1 ≤ (applyMutation s m).selection.start ∧
    (applyMutation s m).selection.stop ≤ s.viewRange.2 ∧
    0 ≤ (applyMutation s m).selection.offsetY ∧
    (applyMutation s m).selection.offsetY ≤
      (applyMutation s m).selection.maxHeight := by
  cases m with
  | move cx cy ol ot => exact onMouseMove_invariants s cx cy ol ot h1 h2 h3 h4
  | wheel e ol => exact onMouseWheel_invariants s e ol h3 h4
  | key k ol =>
    cases k with
    | w => exact onMouseWheel_invariants s _ ol h3 h4
    | s => exact onMouseWheel_invariants s _ ol h3 h4
    | a => exact onMouseWheel_invariants s _ ol h3 h4
    | d => exact onMouseWheel_invariants s _ ol h3 h4
    | otherKey => exact ⟨h1, h2, h3, h4⟩

/-- Witness for C1 at a concrete state and mutation. -/
theorem c1_invariants_after_mutation_witness :
    (0 : ℚ) ≤ c1State.selection.offsetY ∧
    (c1State.viewRange.1 ≤
       (applyMutation c1State (Mutation.wheel c1Event 0)).selection.start ∧
     (applyMutation c1State (Mutation.wheel c1Event 0)).selection.stop ≤
       c1State.viewRange.2 ∧
     0 ≤ (applyMutation c1State (Mutation.wheel c1Event 0)).selection.offsetY ∧
     (applyMutation c1State (Mutation.wheel c1Event 0)).selection.offsetY ≤
       (applyMutation c1State (Mutation.wheel c1Event 0)).selection.maxHeight) :=
  ⟨by norm_num [c1State],
   c1_invariants_after_mutation c1State (Mutation.wheel c1Event 0)
     (by norm_num [c1State]) (by norm_num [c1State]) (by norm_num [c1State])
     (by norm_num [c1State])⟩

/-- C2, counterexample: nothing enforces the minimum selection width.
From the invariant-satisfying viewport `[0, 100]`, the wheel zoom
`deltaY = -20000` leaves a selection of width `-600`, far below
`GRAPH_MIN_SELECTION_WIDTH * pixelRatio = 10`. -/
theorem c2_min_width_counterexample :
    (c2State.viewRange.1 ≤ c2State.selection.start ∧
     c2State.selection.start ≤ c2State.selection.stop ∧
     c2State.selection.stop ≤ c2State.viewRange.2) ∧
    ¬ (GRAPH_MIN_SELECTION_WIDTH * c2State.pixelRatio ≤
       (onMouseWheel c2State c2EventB 0).selection.stop -
         (onMouseWheel c2State c2EventB 0).selection.start) := by
  constructor
  · norm_num [c2State]
  · norm_num [onMouseWheel, normalizeSelectionBounds, c2State, c2EventB,
      incrementForMode, GRAPH_WHEEL_ZOOM_SENSITIVITY,
      GRAPH_WHEEL_SCROLL_SENSITIVITY, GRAPH_MIN_SELECTION_WIDTH, idleDragger]

/-- C2 (amended): the zoom operation does not enforce the minimum
selection width any more than normalization does — `_onMouseWheel` has no
minimum-width branch and `GRAPH_MIN_SELECTION_WIDTH` is computed into an
unused local: a single wheel zoom step from an invariant-satisfying
viewport leaves `end - start` (here `-250`) strictly below
`GRAPH_MIN_SELECTION_WIDTH * pixelRatio`. -/
theorem c2_zoom_can_go_below_min_width :
    (c2State.viewRange.1 ≤ c2State.selection.start ∧
     c2State.selection.start ≤ c2State.selection.stop ∧
     c2State.selection.stop ≤ c2State.viewRange.2) ∧
    (onMouseWheel c2State c2Event 0).selection.stop -
        (onMouseWheel c2State c2Event 0).selection.start <
      GRAPH_MIN_SELECTION_WIDTH * c2State.pixelRatio := by
  constructor
  · norm_num [c2State]
  · norm_num [onMouseWheel, normalizeSelectionBounds, c2State, c2Event,
      incrementForMode, GRAPH_WHEEL_ZOOM_SENSITIVITY,
      GRAPH_WHEEL_SCROLL_SENSITIVITY, GRAPH_MIN_SELECTION_WIDTH, idleDragger]

/-- C3, counterexample: the wheel's horizontal pan component does not
reduce the delta.  From viewport `[10, 60]` in extent `[0, 100]`, the pan
`deltaX = -2000` pushes the raw `start` to `-40`; normalization clamps
the edges independently, so `start` lands on `dataExtent.min = 0` but the
window width shrinks from 50 to 10 instead of being preserved. -/
theorem c3_wheel_pan_counterexample :
    wheelRawStart c3State c3Event 0 < c3State.viewRange.1 ∧
    (onMouseWheel c3State c3Event 0).selection.start = c3State.viewRange.1 ∧
    ¬ ((onMouseWheel c3State c3Event 0).selection.stop -
         (onMouseWheel c3State c3Event 0).selection.start =
       c3State.selection.stop - c3State.selection.start) := by
  refine ⟨?_, ?_, ?_⟩ <;>
    norm_num [wheelRawStart, onMouseWheel, normalizeSelectionBounds, c3State,
      c3Event, incrementForMode, GRAPH_WHEEL_ZOOM_SENSITIVITY,
      GRAPH_WHEEL_SCROLL_SENSITIVITY, GRAPH_MIN_SELECTION_WIDTH, idleDragger]

/-- C3 (amended): for drag pans (mouse-move in the Dragging state) the
claim holds: when the raw drag delta would push `start` below
`dataExtent.min`, the delta is reduced so that `start` lands exactly on
`dataExtent.min` and the anchored window width is preserved.  (The
wheel's pan component instead clamps the shifted edges independently, as
the counterexample shows.) -/
theorem c3_drag_clamp_preserves_width (s : GraphState) (ox cx cy ol ot : ℚ)
    (hdrag : s.dragger.originX = some ox)
    (hA : s.viewRange.1 ≤ s.dragger.anchorStart)
    (hB : s.dragger.anchorEnd ≤ s.viewRange.2)
    (hpush : s.dragger.anchorStart +
        (ox - (cx - ol) * s.pixelRatio) /
          (s.width / (s.selection.stop - s.selection.start)) ≤
      s.viewRange.1) :
    (onMouseMove s cx cy ol ot).selection.start = s.viewRange.1 ∧
    (onMouseMove s cx cy ol ot).selection.stop -
        (onMouseMove s cx cy ol ot).selection.start =
      s.dragger.anchorEnd - s.dragger.anchorStart := by
  simp only [onMouseMove, hdrag, normalizeSelectionBounds, jsNum]
  constructor <;> (dsimp only; split_ifs <;> linarith)

/-- Witness for C3 at a concrete drag: anchored window `[10, 60]`,
pointer dragged from device pixel 500 to 3000. -/
theorem c3_drag_clamp_witness :
    c3DragState.dragger.originX = some 500 ∧
    ((onMouseMove c3DragState 3000 0 0 0).selection.start =
       c3DragState.viewRange.1 ∧
     (onMouseMove c3DragState 3000 0 0 0).selection.stop -
         (onMouseMove c3DragState 3000 0 0 0).selection.start =
       c3DragState.dragger.anchorEnd - c3DragState.dragger.anchorStart) :=
  ⟨rfl,
   c3_drag_clamp_preserves_width c3DragState 500 3000 0 0 0 rfl
     (by norm_num [c3DragState]) (by norm_num [c3DragState])
     (by norm_num [c3DragState])⟩

/-- C4: wheel zoom with no horizontal component and no clamping leaves
the time coordinate under the pointer invariant — exactly, in exact
rational arithmetic: with `p` the pointer's device-pixel distance from
the canvas left edge, `start' + p*(end'-start')/canvasWidth =
start + p*(end-start)/canvasWidth`. -/
theorem c4_zoom_anchor_invariant (s : GraphState) (e : WheelEvent) (off : ℚ)
    (hW : 0 < s.width) (hsel : s.selection.start < s.selection.stop)
    (hdx : e.deltaX = 0)
    (hns : s.viewRange.1 ≤ wheelRawStart s e off)
    (hne : wheelRawStop s e off ≤ s.viewRange.2) :
    (onMouseWheel s e off).selection.start +
        (e.clientX - off) * s.pixelRatio *
            ((onMouseWheel s e off).selection.stop -
              (onMouseWheel s e off).selection.start) / s.width =
      s.selection.start +
        (e.clientX - off) * s.pixelRatio *
            (s.selection.stop - s.selection.start) / s.width := by
  have hs : (onMouseWheel s e off).selection.start = wheelRawStart s e off := by
    rw [onMouseWheel_start_eq, if_neg (not_lt.2 hns)]
  have ht : (onMouseWheel s e off).selection.stop = wheelRawStop s e off := by
    rw [onMouseWheel_stop_eq, if_neg (not_lt.2 hne)]
  rw [hs, ht]
  unfold wheelRawStart wheelRawStop
  dsimp only
  rw [hdx]
  have hW0 : s.width ≠ 0 := ne_of_gt hW
  have hsel0 : s.selection.stop - s.selection.start ≠ 0 :=
    ne_of_gt (sub_pos.2 hsel)
  field_simp
  ring

/-- Witness for C4 at a concrete zoom: viewport `[0, 100]`, canvas width
1000, gentle center zoom `deltaY = -100` whose raw result
`[1.75, 98.25]` needs no clamping. -/
theorem c4_zoom_anchor_witness :
    c4State.viewRange.1 ≤ wheelRawStart c4State c4Event 0 ∧
    (onMouseWheel c4State c4Event 0).selection.start +
        (c4Event.clientX - 0) * c4State.pixelRatio *
            ((onMouseWheel c4State c4Event 0).selection.stop -
              (onMouseWheel c4State c4Event 0).selection.start) /
          c4State.width =
      c4State.selection.start +
        (c4Event.clientX - 0) * c4State.pixelRatio *
            (c4State.selection.stop - c4State.selection.start) /
          c4State.width :=
  ⟨by norm_num [wheelRawStart, c4State, c4Event, incrementForMode,
      GRAPH_WHEEL_ZOOM_SENSITIVITY, GRAPH_WHEEL_SCROLL_SENSITIVITY],
   c4_zoom_anchor_invariant c4State c4Event 0 (by norm_num [c4State])
     (by norm_num [c4State]) rfl
     (by norm_num [wheelRawStart, c4State, c4Event, incrementForMode,
       GRAPH_WHEEL_ZOOM_SENSITIVITY, GRAPH_WHEEL_SCROLL_SENSITIVITY])
     (by norm_num [wheelRawStop, c4State, c4Event, incrementForMode,
       GRAPH_WHEEL_ZOOM_SENSITIVITY, GRAPH_WHEEL_SCROLL_SENSITIVITY])⟩

/-! Helper lemmas for the tick-interval loop. -/

theorem toInt32_lt (n : ℤ) : toInt32 n < 2147483648 := by
  unfold toInt32
  omega

theorem tickLoop_small_scale_none (sm : ℚ) (hsm : 1 ≤ sm) :
    ∀ (fuel : ℕ) (t : ℤ), t < 2147483648 →
      tickLoop (1 / 1099511627776) sm t fuel = none := by
  intro fuel
  induction fuel with
  | zero => intro t ht; rfl
  | succ fuel ih =>
    intro t ht
    have htq : (t : ℚ) < 2147483648 := by exact_mod_cast ht
    have hcond : (1 / 1099511627776 : ℚ) * (t : ℚ) < sm := by
      have h1 : (1 / 1099511627776 : ℚ) * (t : ℚ) < 1 := by
        rw [one_div, inv_mul_eq_div, div_lt_one (by norm_num)]
        linarith
      linarith
    unfold tickLoop
    dsimp only
    rw [if_pos hcond]
    exact ih (toInt32 (2 * t)) (toInt32_lt _)

/-- C8: the `scale == 0` guard works — `_findOptimalTickInterval(0)`
returns 1 for any iteration budget — but the termination half of the
claim is false: at the small positive scale `2^-40` (pixel ratio 1) the
doubling loop never exits for any budget, because `timingStep <<= 1` is a
JS 32-bit shift whose iterates stay below `2^31` forever (they wrap
through negative values to 0), keeping `dataScale * timingStep` below the
75-pixel minimum spacing. -/
theorem c8_zero_guard_and_small_scale_divergence :
    ∀ fuel : ℕ,
      findOptimalTickInterval 1 0 fuel = some 1 ∧
      findOptimalTickInterval 1 (1 / 1099511627776) fuel = none := by
  intro fuel
  constructor
  · unfold findOptimalTickInterval
    norm_num [TIMELINE_TICKS_SPACING_MIN]
  · unfold findOptimalTickInterval
    rw [if_neg (by norm_num [TIMELINE_TICKS_SPACING_MIN]),
      if_neg (by norm_num)]
    exact tickLoop_small_scale_none _
      (by norm_num [TIMELINE_TICKS_SPACING_MIN]) fuel _
      (by norm_num [TIMELINE_TICKS_MULTIPLE])

end FlameGraph
